import Mathlib

/-!
Verification development for the Redis-backed indexed object store of this
repository.  The data model, command queue and entity CRUD functions below are
shallow embeddings of the Go source (transmission.go and the Redis client
facade).  Generic helpers of the repository that are not part of the provided
source (the key-space helpers, the generic object getters, the uuid
collaborator and the clock) are modelled from the specification; each such
definition carries a doc comment saying so.
-/

/-- Model of go-mod-core-contracts models.Transmission, with the fields the
source reads and writes (Id, Created, Modified, Status, SubscriptionName,
NotificationId) plus representative payload fields. -/
structure Transmission where
  Id : String
  Created : Int
  Modified : Int
  Status : String
  SubscriptionName : String
  NotificationId : String
  ResendCount : Int
  Channel : String
deriving DecidableEq, Repr

/-- Model of models.Event with the fields the client facade touches. -/
structure Event where
  Id : String
  DeviceName : String
  Modified : Int
deriving DecidableEq, Repr

/-- Model of models.DeviceProfile with the fields the client facade touches. -/
structure DeviceProfile where
  Id : String
  Name : String
  Modified : Int
deriving DecidableEq, Repr

/-- Model of models.DeviceService with the fields the client facade touches. -/
structure DeviceService where
  Id : String
  Name : String
  Modified : Int
deriving DecidableEq, Repr

/-- Model of models.Device with the fields the client facade touches. -/
structure Device where
  Id : String
  Name : String
  Modified : Int
deriving DecidableEq, Repr

/-- Stored byte blobs.  A well-formed blob is the JSON encoding of one entity;
bad n stands for malformed bytes that fail to unmarshal. -/
inductive Blob where
  | trans (t : Transmission)
  | event (e : Event)
  | profile (p : DeviceProfile)
  | service (d : DeviceService)
  | device (d : Device)
  | bad (n : Nat)
deriving DecidableEq, Repr

/-- json.Marshal for transmissions.  Marshalling a struct of strings and
integers cannot fail in Go, so encoding is total. -/
def encode (t : Transmission) : Blob := Blob.trans t

/-- json.Unmarshal into a Transmission: succeeds exactly on blobs that are
encoded transmissions. -/
def decode : Blob → Option Transmission
  | Blob.trans t => some t
  | _ => none

/-- Error kinds of the go-mod-core-contracts errors package used by the
source. -/
inductive ErrKind where
  | DuplicateName
  | NotFound
  | DatabaseError
  | InvalidId
  | ContractInvalid
  | DecodeError
deriving DecidableEq, Repr

/-- An EdgeX error: a stable kind plus a human-readable message. -/
structure EdgeX where
  kind : ErrKind
  message : String
deriving DecidableEq, Repr

/-- errors.NewCommonEdgeXWrapper: wrapping preserves the kind of the wrapped
error (errors.Kind unwraps to the innermost kind), so at this level of
abstraction it is the identity. -/
def NewCommonEdgeXWrapper (e : EdgeX) : EdgeX := e

/-- Redis commands queued on a connection by the source.  multi and exec
delimit an atomic batch. -/
inductive Cmd where
  | multi
  | exec
  | set (key : String) (blob : Blob)
  | del (key : String)
  | zadd (zkey : String) (score : Int) (member : String)
  | zrem (zkey : String) (member : String)
deriving DecidableEq, Repr

/-- The visible state of the Redis store: the object blobs keyed by string,
and the sorted sets (zset name mapped to its member/score pairs). -/
structure Store where
  objects : List (String × Blob)
  zsets : List (String × List (String × Int))
deriving DecidableEq, Repr

/-- Association-list lookup by string key. -/
def alookup {α : Type} (k : String) : List (String × α) → Option α
  | [] => none
  | (k', v) :: rest => if k' = k then some v else alookup k rest

/-- Insert or overwrite the binding of a key in an association list. -/
def aupsert {α : Type} (k : String) (v : α) : List (String × α) → List (String × α)
  | [] => [(k, v)]
  | (k', v') :: rest => if k' = k then (k, v) :: rest else (k', v') :: aupsert k v rest

/-- Remove every binding of a key from an association list. -/
def aremove {α : Type} (k : String) : List (String × α) → List (String × α)
  | [] => []
  | (k', v') :: rest => if k' = k then aremove k rest else (k', v') :: aremove k rest

/-- Apply a function to the member list of one sorted set, creating the set
when absent (as Redis zadd does). -/
def updateZset (z : String) (f : List (String × Int) → List (String × Int)) :
    List (String × List (String × Int)) → List (String × List (String × Int))
  | [] => [(z, f [])]
  | (z', l) :: rest => if z' = z then (z, f l) :: rest else (z', l) :: updateZset z f rest

/-- Effect of one committed command on the store.  multi and exec only
delimit the batch; the state transition of a committed batch is the fold of
its commands. -/
def applyCmd (s : Store) : Cmd → Store
  | Cmd.multi => s
  | Cmd.exec => s
  | Cmd.set k b => { s with objects := aupsert k b s.objects }
  | Cmd.del k => { s with objects := aremove k s.objects }
  | Cmd.zadd z sc m => { s with zsets := updateZset z (aupsert m sc) s.zsets }
  | Cmd.zrem z m => { s with zsets := updateZset z (aremove m) s.zsets }

/-- State after committing a queued command sequence. -/
def applyCmds (s : Store) (cs : List Cmd) : Store := cs.foldl applyCmd s

/-- The blob stored at a key, if any. -/
def objectAt (s : Store) (k : String) : Option Blob := alookup k s.objects

/-- Member list of a sorted set (empty when the set is absent). -/
def zsetOf (s : Store) (z : String) : List (String × Int) := (alookup z s.zsets).getD []

/-- Score of a member in a sorted set, if present. -/
def zscore (s : Store) (z m : String) : Option Int := alookup m (zsetOf s z)

/-- Modelled from the spec: DBKeySeparator of the repository's key space
(section 4.1, the separator between key components); the constants file is
not under src/. -/
def DBKeySeparator : String := ":"

/-- Modelled from the spec: CreateKey of the key space (section 4.1),
joining key components with the separator; the helper is not under src/. -/
def CreateKey (a b : String) : String := a ++ DBKeySeparator ++ b

def TransmissionCollection : String := "sn|trans"

def TransmissionCollectionStatus : String :=
  TransmissionCollection ++ DBKeySeparator ++ "status"

def TransmissionCollectionSubscriptionName : String :=
  TransmissionCollection ++ DBKeySeparator ++ "subscription" ++ DBKeySeparator ++ "name"

def TransmissionCollectionNotificationId : String :=
  TransmissionCollection ++ DBKeySeparator ++ "notification" ++ DBKeySeparator ++ "id"

def TransmissionCollectionCreated : String :=
  TransmissionCollection ++ DBKeySeparator ++ "created"

/-- transmissionStoredKey: combines the collection name and the object id. -/
def transmissionStoredKey (id : String) : String := CreateKey TransmissionCollection id

/-- Modelled from the spec: getObjectById of the generic object store
(section 4.2) — fetch and decode; NotFound if the key is absent, DecodeError
if the stored bytes do not parse.  The generic helper is not under src/. -/
def getObjectById (s : Store) (key : String) : Except EdgeX Transmission :=
  match alookup key s.objects with
  | none => Except.error ⟨ErrKind.NotFound, "object does not exist in the database"⟩
  | some b =>
    match decode b with
    | none => Except.error ⟨ErrKind.DecodeError, "failed to decode stored object"⟩
    | some t => Except.ok t

/-- transmissionById: query transmission by id from DB. -/
def transmissionById (s : Store) (id : String) : Except EdgeX Transmission :=
  match getObjectById s (transmissionStoredKey id) with
  | Except.error e => Except.error (NewCommonEdgeXWrapper e)
  | Except.ok t => Except.ok t

/-- sendAddTransmissionCmd: the Redis commands queued for adding a
transmission (object SET plus the primary, created-time and three secondary
index ZADDs).  Marshalling cannot fail for this struct, so the command list is
total. -/
def sendAddTransmissionCmd (storedKey : String) (trans : Transmission) : List Cmd :=
  [ Cmd.set storedKey (encode trans),
    Cmd.zadd TransmissionCollection trans.Modified storedKey,
    Cmd.zadd TransmissionCollectionCreated trans.Created storedKey,
    Cmd.zadd (CreateKey TransmissionCollectionStatus trans.Status) trans.Modified storedKey,
    Cmd.zadd (CreateKey TransmissionCollectionSubscriptionName trans.SubscriptionName) trans.Modified storedKey,
    Cmd.zadd (CreateKey TransmissionCollectionNotificationId trans.NotificationId) trans.Modified storedKey ]

/-- sendDeleteTransmissionCmd: the Redis commands queued to delete a
transmission (object DEL plus the five index ZREMs keyed by the record's
current field values). -/
def sendDeleteTransmissionCmd (storedKey : String) (trans : Transmission) : List Cmd :=
  [ Cmd.del storedKey,
    Cmd.zrem TransmissionCollection storedKey,
    Cmd.zrem TransmissionCollectionCreated storedKey,
    Cmd.zrem (CreateKey TransmissionCollectionStatus trans.Status) storedKey,
    Cmd.zrem (CreateKey TransmissionCollectionSubscriptionName trans.SubscriptionName) storedKey,
    Cmd.zrem (CreateKey TransmissionCollectionNotificationId trans.NotificationId) storedKey ]

/-- Modelled from the spec: the O(1) existence probe of the object store
(section 4.2); the generic helper is not under src/. -/
def objectIdExists (s : Store) (key : String) : Bool := (alookup key s.objects).isSome

/-- addTransmission: adds a new transmission.  ts is the store-generated
timestamp (common.MakeTimestamp, taken at write time).  Returns the stored
record together with the queued command batch. -/
def addTransmission (s : Store) (trans : Transmission) (ts : Int) :
    Except EdgeX (Transmission × List Cmd) :=
  if objectIdExists s (transmissionStoredKey trans.Id) then
    Except.error ⟨ErrKind.DuplicateName, "transmission id " ++ trans.Id ++ " already exists"⟩
  else
    let t1 := if trans.Created = 0 then { trans with Created := ts } else trans
    let t2 := { t1 with Modified := ts }
    let storedKey := transmissionStoredKey t2.Id
    Except.ok (t2, Cmd.multi :: (sendAddTransmissionCmd storedKey t2 ++ [Cmd.exec]))

/-- addTransmission with its batch committed (the EXEC success path). -/
def addTransmissionApply (s : Store) (trans : Transmission) (ts : Int) :
    Except EdgeX (Transmission × Store) :=
  match addTransmission s trans ts with
  | Except.error e => Except.error e
  | Except.ok (t, cmds) => Except.ok (t, applyCmds s cmds)

/-- updateTransmission: fetches the old record, then queues (in one
MULTI/EXEC batch) the removals keyed by the old record followed by the object
overwrite and additions keyed by the new record, whose Modified is replaced by
the store-generated timestamp ts. -/
def updateTransmission (s : Store) (trans : Transmission) (ts : Int) :
    Except EdgeX (List Cmd) :=
  match transmissionById s trans.Id with
  | Except.error e => Except.error (NewCommonEdgeXWrapper e)
  | Except.ok oldTransmission =>
    let t := { trans with Modified := ts }
    let storedKey := transmissionStoredKey trans.Id
    Except.ok (Cmd.multi ::
      (sendDeleteTransmissionCmd storedKey oldTransmission ++
        sendAddTransmissionCmd storedKey t ++ [Cmd.exec]))

/-- updateTransmission with its batch committed (the EXEC success path). -/
def updateTransmissionApply (s : Store) (trans : Transmission) (ts : Int) :
    Except EdgeX Store :=
  match updateTransmission s trans ts with
  | Except.error e => Except.error e
  | Except.ok cmds => Except.ok (applyCmds s cmds)

/-- Insert a member/score pair into a list sorted by descending score. -/
def revInsert (p : String × Int) : List (String × Int) → List (String × Int)
  | [] => [p]
  | q :: rest => if q.2 ≤ p.2 then p :: q :: rest else q :: revInsert p rest

/-- Sort member/score pairs by descending score (newest first). -/
def revSort : List (String × Int) → List (String × Int)
  | [] => []
  | p :: rest => revInsert p (revSort rest)

/-- The window of member keys read from a sorted set in reverse score order,
skipping offset members and taking at most limit. -/
def revRangeMembers (s : Store) (z : String) (offset limit : Nat) : List String :=
  ((((revSort (zsetOf s z)).map Prod.fst).drop offset).take limit)

/-- Batch-fetch the blobs of a list of keys, preserving input order.  A
missing key signals an index/object inconsistency and is surfaced as an
internal error rather than silently skipped (spec section 4.2). -/
def fetchAll (s : Store) : List String → Except EdgeX (List Blob)
  | [] => Except.ok []
  | k :: rest =>
    match alookup k s.objects with
    | none => Except.error ⟨ErrKind.DatabaseError, "object missing for index member"⟩
    | some b =>
      match fetchAll s rest with
      | Except.error e => Except.error e
      | Except.ok bs => Except.ok (b :: bs)

/-- Modelled from the spec: getObjectsByRevRange of the query engine
(section 4.4, full scan) — read a window of limit member keys starting at
offset from the index, newest first, then batch-fetch the blobs in that
order.  The generic helper is not under src/. -/
def getObjectsByRevRange (s : Store) (z : String) (offset limit : Nat) :
    Except EdgeX (List Blob) :=
  fetchAll s (revRangeMembers s z offset limit)

/-- Modelled from the spec: getObjectsByScoreRange of the query engine
(section 4.4, time range) — members whose score lies in [startTime, endTime]
in ascending order, offset/limit applied after range selection, then the
blobs fetched in that order.  The generic helper is not under src/. -/
def getObjectsByScoreRange (s : Store) (z : String) (startTime endTime : Int)
    (offset limit : Nat) : Except EdgeX (List Blob) :=
  fetchAll s (((((revSort (zsetOf s z)).reverse.filter
    (fun p => decide (startTime ≤ p.2) && decide (p.2 ≤ endTime))).map Prod.fst).drop
      offset).take limit)

/-- The decode loop shared by allTransmissions and transmissionsByTimeRange:
each blob is unmarshalled in order; the first malformed blob aborts the query
with a KindDatabaseError error (the kind and message are those of the
source). -/
def decodeTransmissionList : List Blob → Except EdgeX (List Transmission)
  | [] => Except.ok []
  | b :: rest =>
    match decode b with
    | none =>
      Except.error ⟨ErrKind.DatabaseError, "transmission format parsing failed from the database"⟩
    | some t =>
      match decodeTransmissionList rest with
      | Except.error e => Except.error e
      | Except.ok ts => Except.ok (t :: ts)

/-- allTransmissions: queries transmissions by offset and limit from the
primary (modified-time) index, newest first. -/
def allTransmissions (s : Store) (offset limit : Nat) : Except EdgeX (List Transmission) :=
  match getObjectsByRevRange s TransmissionCollection offset limit with
  | Except.error e => Except.error (NewCommonEdgeXWrapper e)
  | Except.ok objects => decodeTransmissionList objects

/-- transmissionsByTimeRange: queries transmissions by creation-time range,
offset and limit. -/
def transmissionsByTimeRange (s : Store) (startTime endTime : Int) (offset limit : Nat) :
    Except EdgeX (List Transmission) :=
  match getObjectsByScoreRange s TransmissionCollectionCreated startTime endTime offset limit with
  | Except.error e => Except.error (NewCommonEdgeXWrapper e)
  | Except.ok objects => decodeTransmissionList objects

/-- Fetch-and-decode of one key, used to state query results. -/
def fetchDecode (s : Store) (k : String) : Option Transmission :=
  (alookup k s.objects).bind decode

/-- Hexadecimal digit test for the canonical uuid form. -/
def hexDigitB (c : Char) : Bool :=
  (('0' ≤ c) && (c ≤ '9')) || (('a' ≤ c) && (c ≤ 'f')) || (('A' ≤ c) && (c ≤ 'F'))

/-- Position test for the canonical uuid form: hyphens at positions 8, 13,
18, 23 and hex digits elsewhere. -/
def uuidCharOk (i : Nat) (c : Char) : Bool :=
  if i = 8 || i = 13 || i = 18 || i = 23 then c = '-' else hexDigitB c

/-- Modelled from the spec: uuid.Parse of the uuid collaborator, as the
acceptance test of the canonical textual form of an identifier (section 6:
identifiers are accepted in canonical textual form; malformed tokens fail).
The collaborator is not under src/. -/
def isValidUUID (s : String) : Bool :=
  (s.data.length == 36) && (s.data.enum.all fun ic => uuidCharOk ic.1 ic.2)

/-- Modelled from the spec: uuid.New of the uuid collaborator — a source of
fresh unique identifier tokens (section 3: generated as a random unique token
if absent on create).  Modelled as an injective function of a generator
counter; successive calls thread the counter, so distinct calls yield
distinct tokens.  The token's textual shape is not modelled. -/
def uuidNew (g : Nat) : String := String.mk ('u' :: List.replicate g 'x')

def EventsCollection : String := "cd|evt"

def DeviceProfileCollection : String := "md|dp"

def DeviceServiceCollection : String := "md|ds"

def DeviceCollection : String := "md|dv"

/-- Modelled from the spec: the create path of the index maintainer
(section 4.3) shared by the entity add helpers that are not under src/ —
probe the object key (DuplicateName family on a hit), probe the name-keyed
index for an existing member (DuplicateName on a hit), then atomically write
the blob and add the key to the primary and name indexes with the modified
time as score. -/
def specCreate (s : Store) (coll key nameKey : String) (ts : Int) (b : Blob) :
    Except EdgeX Store :=
  if (alookup key s.objects).isSome then
    Except.error ⟨ErrKind.DuplicateName, "object id already exists"⟩
  else if !(zsetOf s nameKey).isEmpty then
    Except.error ⟨ErrKind.DuplicateName, "object name already exists"⟩
  else
    Except.ok (applyCmds s
      [Cmd.multi, Cmd.set key b, Cmd.zadd coll ts key, Cmd.zadd nameKey ts key, Cmd.exec])

/-- Modelled from the spec: addEvent (not under src/), the create path for
events; the modified time is the store-generated timestamp ts. -/
def addEvent (s : Store) (ts : Int) (e : Event) : Except EdgeX (Event × Store) :=
  let e := { e with Modified := ts }
  match specCreate s EventsCollection (CreateKey EventsCollection e.Id)
      (CreateKey (CreateKey EventsCollection "device") e.DeviceName) ts (Blob.event e) with
  | Except.error err => Except.error err
  | Except.ok s' => Except.ok (e, s')

/-- Modelled from the spec: addDeviceProfile (not under src/), the create
path for device profiles. -/
def addDeviceProfile (s : Store) (ts : Int) (dp : DeviceProfile) :
    Except EdgeX (DeviceProfile × Store) :=
  let dp := { dp with Modified := ts }
  match specCreate s DeviceProfileCollection (CreateKey DeviceProfileCollection dp.Id)
      (CreateKey (CreateKey DeviceProfileCollection "name") dp.Name) ts (Blob.profile dp) with
  | Except.error err => Except.error err
  | Except.ok s' => Except.ok (dp, s')

/-- Modelled from the spec: addDeviceService (not under src/), the create
path for device services. -/
def addDeviceService (s : Store) (ts : Int) (ds : DeviceService) :
    Except EdgeX (DeviceService × Store) :=
  let ds := { ds with Modified := ts }
  match specCreate s DeviceServiceCollection (CreateKey DeviceServiceCollection ds.Id)
      (CreateKey (CreateKey DeviceServiceCollection "name") ds.Name) ts (Blob.service ds) with
  | Except.error err => Except.error err
  | Except.ok s' => Except.ok (ds, s')

/-- Modelled from the spec: addDevice (not under src/), the create path for
devices. -/
def addDevice (s : Store) (ts : Int) (d : Device) : Except EdgeX (Device × Store) :=
  let d := { d with Modified := ts }
  match specCreate s DeviceCollection (CreateKey DeviceCollection d.Id)
      (CreateKey (CreateKey DeviceCollection "name") d.Name) ts (Blob.device d) with
  | Except.error err => Except.error err
  | Except.ok s' => Except.ok (d, s')

/-- Client.AddEvent: a non-empty id must parse as a uuid (InvalidId
otherwise, before any store access); then the add helper runs.  ts models the
ambient clock. -/
def ClientAddEvent (s : Store) (ts : Int) (e : Event) : Except EdgeX (Event × Store) :=
  if e.Id ≠ "" then
    if isValidUUID e.Id then addEvent s ts e
    else Except.error ⟨ErrKind.InvalidId, "uuid parsing failed"⟩
  else addEvent s ts e

/-- Client.AddDeviceProfile: a non-empty id must parse as a uuid (InvalidId
otherwise); an empty id is replaced by a freshly generated one.  g is the
uuid generator counter, threaded through the call. -/
def ClientAddDeviceProfile (s : Store) (g : Nat) (ts : Int) (dp : DeviceProfile) :
    Except EdgeX (DeviceProfile × Store) × Nat :=
  if dp.Id ≠ "" then
    if isValidUUID dp.Id then (addDeviceProfile s ts dp, g)
    else (Except.error ⟨ErrKind.InvalidId, "ID failed UUID parsing"⟩, g)
  else (addDeviceProfile s ts { dp with Id := uuidNew g }, g + 1)

/-- Client.AddDeviceService: an empty id is replaced by a freshly generated
one; a non-empty id is passed through without validation (the source performs
no uuid check here). -/
def ClientAddDeviceService (s : Store) (g : Nat) (ts : Int) (ds : DeviceService) :
    Except EdgeX (DeviceService × Store) × Nat :=
  if ds.Id = "" then (addDeviceService s ts { ds with Id := uuidNew g }, g + 1)
  else (addDeviceService s ts ds, g)

/-- Client.AddDevice: an empty id is replaced by a freshly generated one; a
non-empty id is passed through without validation. -/
def ClientAddDevice (s : Store) (g : Nat) (ts : Int) (d : Device) :
    Except EdgeX (Device × Store) × Nat :=
  if d.Id = "" then (addDevice s ts { d with Id := uuidNew g }, g + 1)
  else (addDevice s ts d, g)

/-! Concrete inputs used by the witnesses and counterexamples. -/

/-- A transmission already stored (old record) for the update claims. -/
def wOld : Transmission := ⟨"t1", 11, 12, "SENT", "subA", "n1", 0, "ch"⟩

/-- The caller-supplied updated record: different secondary field values and
a zero Created, exercising the update claims. -/
def wNew : Transmission := ⟨"t1", 0, 5, "FAILED", "subB", "n2", 1, "ch2"⟩

/-- A store holding wOld with all its index entries. -/
def wStore : Store :=
  ⟨[("sn|trans:t1", Blob.trans wOld)],
   [("sn|trans", [("sn|trans:t1", 12)]),
    ("sn|trans:created", [("sn|trans:t1", 11)]),
    ("sn|trans:status:SENT", [("sn|trans:t1", 12)]),
    ("sn|trans:subscription:name:subA", [("sn|trans:t1", 12)]),
    ("sn|trans:notification:id:n1", [("sn|trans:t1", 12)])]⟩

/-- The empty store. -/
def emptyStore : Store := ⟨[], []⟩

/-- A store whose primary and created-time transmission indexes reference a
malformed blob. -/
def badBlobStore : Store :=
  ⟨[("sn|trans:bad", Blob.bad 0)],
   [("sn|trans", [("sn|trans:bad", 5)]),
    ("sn|trans:created", [("sn|trans:bad", 5)])]⟩

/-- Two well-formed transmissions for the pagination witness. -/
def w7a : Transmission := ⟨"a", 1, 10, "SENT", "s", "n", 0, "c"⟩

def w7b : Transmission := ⟨"b", 2, 20, "SENT", "s", "n", 0, "c"⟩

/-- A store holding w7a and w7b on the primary index. -/
def w7Store : Store :=
  ⟨[("sn|trans:a", Blob.trans w7a), ("sn|trans:b", Blob.trans w7b)],
   [("sn|trans", [("sn|trans:a", 10), ("sn|trans:b", 20)])]⟩

/-- A device service carrying a non-empty id that is not a canonical uuid. -/
def dsBadId : DeviceService := ⟨"not-a-uuid", "svc", 0⟩

/-! Association-list and store lemmas. -/

theorem alookup_aupsert {α : Type} (k q : String) (v : α) (l : List (String × α)) :
    alookup q (aupsert k v l) = if k = q then some v else alookup q l := by
  induction l with
  | nil => by_cases h : k = q <;> simp [aupsert, alookup, h]
  | cons p rest ih =>
    obtain ⟨k', v'⟩ := p
    by_cases h1 : k' = k <;> by_cases h2 : k = q <;>
      simp_all [aupsert, alookup]

theorem alookup_aremove {α : Type} (k q : String) (l : List (String × α)) :
    alookup q (aremove k l) = if k = q then none else alookup q l := by
  induction l with
  | nil => by_cases h : k = q <;> simp [aremove, alookup, h]
  | cons p rest ih =>
    obtain ⟨k', v'⟩ := p
    by_cases h1 : k' = k <;> by_cases h2 : k = q <;>
      simp_all [aremove, alookup]

theorem alookup_updateZset (z q : String) (f : List (String × Int) → List (String × Int))
    (zs : List (String × List (String × Int))) :
    alookup q (updateZset z f zs) =
      if z = q then some (f ((alookup z zs).getD [])) else alookup q zs := by
  induction zs with
  | nil => by_cases h : z = q <;> simp [updateZset, alookup, h]
  | cons p rest ih =>
    obtain ⟨z', l⟩ := p
    by_cases h1 : z' = z <;> by_cases h2 : z = q <;>
      simp_all [updateZset, alookup]

@[simp] theorem applyCmds_nil (s : Store) : applyCmds s [] = s := rfl

@[simp] theorem applyCmds_cons (s : Store) (c : Cmd) (cs : List Cmd) :
    applyCmds s (c :: cs) = applyCmds (applyCmd s c) cs := rfl

@[simp] theorem objectAt_multi (s : Store) (q : String) :
    objectAt (applyCmd s Cmd.multi) q = objectAt s q := rfl

@[simp] theorem objectAt_exec (s : Store) (q : String) :
    objectAt (applyCmd s Cmd.exec) q = objectAt s q := rfl

@[simp] theorem objectAt_zadd (s : Store) (z : String) (sc : Int) (m q : String) :
    objectAt (applyCmd s (Cmd.zadd z sc m)) q = objectAt s q := rfl

@[simp] theorem objectAt_zrem (s : Store) (z m q : String) :
    objectAt (applyCmd s (Cmd.zrem z m)) q = objectAt s q := rfl

@[simp] theorem objectAt_set (s : Store) (k : String) (b : Blob) (q : String) :
    objectAt (applyCmd s (Cmd.set k b)) q = if k = q then some b else objectAt s q := by
  simp [objectAt, applyCmd, alookup_aupsert]

@[simp] theorem objectAt_del (s : Store) (k q : String) :
    objectAt (applyCmd s (Cmd.del k)) q = if k = q then none else objectAt s q := by
  simp [objectAt, applyCmd, alookup_aremove]

@[simp] theorem zscore_multi (s : Store) (q r : String) :
    zscore (applyCmd s Cmd.multi) q r = zscore s q r := rfl

@[simp] theorem zscore_exec (s : Store) (q r : String) :
    zscore (applyCmd s Cmd.exec) q r = zscore s q r := rfl

@[simp] theorem zscore_set (s : Store) (k : String) (b : Blob) (q r : String) :
    zscore (applyCmd s (Cmd.set k b)) q r = zscore s q r := rfl

@[simp] theorem zscore_del (s : Store) (k q r : String) :
    zscore (applyCmd s (Cmd.del k)) q r = zscore s q r := rfl

theorem zsetOf_zadd (s : Store) (z : String) (sc : Int) (m q : String) :
    zsetOf (applyCmd s (Cmd.zadd z sc m)) q =
      if z = q then aupsert m sc (zsetOf s z) else zsetOf s q := by
  simp only [zsetOf, applyCmd, alookup_updateZset]
  by_cases h : z = q <;> simp [h]

theorem zsetOf_zrem (s : Store) (z m q : String) :
    zsetOf (applyCmd s (Cmd.zrem z m)) q =
      if z = q then aremove m (zsetOf s z) else zsetOf s q := by
  simp only [zsetOf, applyCmd, alookup_updateZset]
  by_cases h : z = q <;> simp [h]

@[simp] theorem zscore_zadd (s : Store) (z : String) (sc : Int) (m q r : String) :
    zscore (applyCmd s (Cmd.zadd z sc m)) q r =
      if z = q then (if m = r then some sc else zscore s z r) else zscore s q r := by
  rw [zscore, zsetOf_zadd]
  by_cases h : z = q <;> simp [h, alookup_aupsert, zscore]

@[simp] theorem zscore_zrem (s : Store) (z m q r : String) :
    zscore (applyCmd s (Cmd.zrem z m)) q r =
      if z = q then (if m = r then none else zscore s z r) else zscore s q r := by
  rw [zscore, zsetOf_zrem]
  by_cases h : z = q <;> simp [h, alookup_aremove, zscore]

/-! Key-space disequality lemmas: distinct index families can never produce
the same store key, whatever the indexed field values are. -/

theorem string_append_ne_at (p q : String) (i : Nat) (h1 : i < p.data.length)
    (h2 : i < q.data.length) (hne : p.data.get? i ≠ q.data.get? i) (v w : String) :
    p ++ v ≠ q ++ w := by
  intro h
  apply hne
  have hd : p.data ++ v.data = q.data ++ w.data := by
    have hdd := congrArg String.data h
    simpa [String.data_append] using hdd
  calc p.data.get? i = (p.data ++ v.data).get? i := (List.get?_append h1).symm
    _ = (q.data ++ w.data).get? i := by rw [hd]
    _ = q.data.get? i := List.get?_append h2

theorem string_append_ne_const_at (p q : String) (i : Nat) (h1 : i < p.data.length)
    (h2 : i < q.data.length) (hne : p.data.get? i ≠ q.data.get? i) (v : String) :
    p ++ v ≠ q := by
  intro h
  apply hne
  have hd : p.data ++ v.data = q.data := by
    have hdd := congrArg String.data h
    simpa [String.data_append] using hdd
  calc p.data.get? i = (p.data ++ v.data).get? i := (List.get?_append h1).symm
    _ = q.data.get? i := by rw [hd]

theorem string_append_ne_shorter (p q : String) (h : q.data.length < p.data.length)
    (v : String) : p ++ v ≠ q := by
  intro he
  have hd : p.data ++ v.data = q.data := by
    have hdd := congrArg String.data he
    simpa [String.data_append] using hdd
  have hl : p.data.length + v.data.length = q.data.length := by
    rw [← hd]
    exact (List.length_append _ _).symm
  omega

theorem string_append_cancel (p : String) {v w : String} (h : v ≠ w) :
    p ++ v ≠ p ++ w := by
  intro he
  apply h
  have hd : p.data ++ v.data = p.data ++ w.data := by
    have hdd := congrArg String.data he
    simpa [String.data_append] using hdd
  have hvw := List.append_cancel_left hd
  exact String.ext hvw

theorem ckStatus_eq (v : String) :
    CreateKey TransmissionCollectionStatus v = "sn|trans:status:" ++ v := rfl

theorem ckSub_eq (v : String) :
    CreateKey TransmissionCollectionSubscriptionName v = "sn|trans:subscription:name:" ++ v := rfl

theorem ckNotif_eq (v : String) :
    CreateKey TransmissionCollectionNotificationId v = "sn|trans:notification:id:" ++ v := rfl

theorem ckStatus_ne_tc (v : String) :
    CreateKey TransmissionCollectionStatus v ≠ TransmissionCollection := by
  rw [ckStatus_eq]; exact string_append_ne_shorter _ _ (by decide) v

theorem tc_ne_ckStatus (v : String) :
    TransmissionCollection ≠ CreateKey TransmissionCollectionStatus v :=
  (ckStatus_ne_tc v).symm

theorem ckSub_ne_tc (v : String) :
    CreateKey TransmissionCollectionSubscriptionName v ≠ TransmissionCollection := by
  rw [ckSub_eq]; exact string_append_ne_shorter _ _ (by decide) v

theorem tc_ne_ckSub (v : String) :
    TransmissionCollection ≠ CreateKey TransmissionCollectionSubscriptionName v :=
  (ckSub_ne_tc v).symm

theorem ckNotif_ne_tc (v : String) :
    CreateKey TransmissionCollectionNotificationId v ≠ TransmissionCollection := by
  rw [ckNotif_eq]; exact string_append_ne_shorter _ _ (by decide) v

theorem tc_ne_ckNotif (v : String) :
    TransmissionCollection ≠ CreateKey TransmissionCollectionNotificationId v :=
  (ckNotif_ne_tc v).symm

theorem ckStatus_ne_created (v : String) :
    CreateKey TransmissionCollectionStatus v ≠ TransmissionCollectionCreated := by
  rw [ckStatus_eq]
  exact string_append_ne_const_at _ _ 9 (by decide) (by decide) (by decide) v

theorem created_ne_ckStatus (v : String) :
    TransmissionCollectionCreated ≠ CreateKey TransmissionCollectionStatus v :=
  (ckStatus_ne_created v).symm

theorem ckSub_ne_created (v : String) :
    CreateKey TransmissionCollectionSubscriptionName v ≠ TransmissionCollectionCreated := by
  rw [ckSub_eq]
  exact string_append_ne_const_at _ _ 9 (by decide) (by decide) (by decide) v

theorem created_ne_ckSub (v : String) :
    TransmissionCollectionCreated ≠ CreateKey TransmissionCollectionSubscriptionName v :=
  (ckSub_ne_created v).symm

theorem ckNotif_ne_created (v : String) :
    CreateKey TransmissionCollectionNotificationId v ≠ TransmissionCollectionCreated := by
  rw [ckNotif_eq]
  exact string_append_ne_const_at _ _ 9 (by decide) (by decide) (by decide) v

theorem created_ne_ckNotif (v : String) :
    TransmissionCollectionCreated ≠ CreateKey TransmissionCollectionNotificationId v :=
  (ckNotif_ne_created v).symm

theorem ckStatus_ne_ckSub (v w : String) :
    CreateKey TransmissionCollectionStatus v ≠
      CreateKey TransmissionCollectionSubscriptionName w := by
  rw [ckStatus_eq, ckSub_eq]
  exact string_append_ne_at _ _ 10 (by decide) (by decide) (by decide) v w

theorem ckSub_ne_ckStatus (v w : String) :
    CreateKey TransmissionCollectionSubscriptionName v ≠
      CreateKey TransmissionCollectionStatus w :=
  (ckStatus_ne_ckSub w v).symm

theorem ckStatus_ne_ckNotif (v w : String) :
    CreateKey TransmissionCollectionStatus v ≠
      CreateKey TransmissionCollectionNotificationId w := by
  rw [ckStatus_eq, ckNotif_eq]
  exact string_append_ne_at _ _ 9 (by decide) (by decide) (by decide) v w

theorem ckNotif_ne_ckStatus (v w : String) :
    CreateKey TransmissionCollectionNotificationId v ≠
      CreateKey TransmissionCollectionStatus w :=
  (ckStatus_ne_ckNotif w v).symm

theorem ckSub_ne_ckNotif (v w : String) :
    CreateKey TransmissionCollectionSubscriptionName v ≠
      CreateKey TransmissionCollectionNotificationId w := by
  rw [ckSub_eq, ckNotif_eq]
  exact string_append_ne_at _ _ 9 (by decide) (by decide) (by decide) v w

theorem ckNotif_ne_ckSub (v w : String) :
    CreateKey TransmissionCollectionNotificationId v ≠
      CreateKey TransmissionCollectionSubscriptionName w :=
  (ckSub_ne_ckNotif w v).symm

theorem tc_ne_created : TransmissionCollection ≠ TransmissionCollectionCreated := by decide

theorem created_ne_tc : TransmissionCollectionCreated ≠ TransmissionCollection :=
  tc_ne_created.symm

theorem ckStatus_ne_same {v w : String} (h : v ≠ w) :
    CreateKey TransmissionCollectionStatus v ≠ CreateKey TransmissionCollectionStatus w := by
  rw [ckStatus_eq, ckStatus_eq]; exact string_append_cancel _ h

theorem ckSub_ne_same {v w : String} (h : v ≠ w) :
    CreateKey TransmissionCollectionSubscriptionName v ≠
      CreateKey TransmissionCollectionSubscriptionName w := by
  rw [ckSub_eq, ckSub_eq]; exact string_append_cancel _ h

theorem ckNotif_ne_same {v w : String} (h : v ≠ w) :
    CreateKey TransmissionCollectionNotificationId v ≠
      CreateKey TransmissionCollectionNotificationId w := by
  rw [ckNotif_eq, ckNotif_eq]; exact string_append_cancel _ h

/-! Helper lemmas about the decode loop, the fetch path and the modelled
create path. -/

theorem decodeTransmissionList_error_of_bad (bs : List Blob)
    (hb : ∃ b ∈ bs, decode b = none) :
    ∃ m, decodeTransmissionList bs = Except.error ⟨ErrKind.DatabaseError, m⟩ := by
  induction bs with
  | nil => simp at hb
  | cons b rest ih =>
    obtain ⟨b', hb', hdec⟩ := hb
    rcases List.mem_cons.mp hb' with heq | hmem
    · subst heq
      exact ⟨"transmission format parsing failed from the database",
        by simp [decodeTransmissionList, hdec]⟩
    · rcases hdb : decode b with _ | t
      · exact ⟨"transmission format parsing failed from the database",
          by simp [decodeTransmissionList, hdb]⟩
      · obtain ⟨m, hm⟩ := ih ⟨b', hmem, hdec⟩
        exact ⟨m, by simp [decodeTransmissionList, hdb, hm]⟩

theorem fetchAll_ok_of_stored (s : Store) (ks : List String)
    (h : ∀ k ∈ ks, ∃ tr, objectAt s k = some (Blob.trans tr)) :
    ∃ bs, fetchAll s ks = Except.ok bs ∧
      decodeTransmissionList bs = Except.ok (ks.filterMap (fetchDecode s)) ∧
      (ks.filterMap (fetchDecode s)).length = ks.length := by
  induction ks with
  | nil => exact ⟨[], rfl, rfl, rfl⟩
  | cons k rest ih =>
    obtain ⟨tr, htr⟩ := h k (List.mem_cons_self k rest)
    obtain ⟨bs, hbs, hdec, hlen⟩ := ih (fun k' hk' => h k' (List.mem_cons_of_mem _ hk'))
    have htr' : alookup k s.objects = some (Blob.trans tr) := htr
    have hfd : fetchDecode s k = some tr := by simp [fetchDecode, htr', decode]
    refine ⟨Blob.trans tr :: bs, ?_, ?_, ?_⟩
    · simp [fetchAll, htr', hbs]
    · simp [decodeTransmissionList, decode, hdec, hfd]
    · simp [hfd, hlen]

theorem specCreate_ok_objectAt (s : Store) (coll key nameKey : String) (ts : Int) (b : Blob)
    (s' : Store) (h : specCreate s coll key nameKey ts b = Except.ok s') :
    objectAt s' key = some b := by
  rw [specCreate] at h
  split at h
  · exact absurd h (by simp)
  · split at h
    · exact absurd h (by simp)
    · simp only [Except.ok.injEq] at h
      subst h
      simp

theorem addDeviceProfile_ok (s : Store) (ts : Int) (dp r : DeviceProfile) (s' : Store)
    (h : addDeviceProfile s ts dp = Except.ok (r, s')) :
    r.Id = dp.Id ∧ objectAt s' (CreateKey DeviceProfileCollection dp.Id) = some (Blob.profile r) := by
  simp only [addDeviceProfile] at h
  rcases hsc : specCreate s DeviceProfileCollection
      (CreateKey DeviceProfileCollection dp.Id)
      (CreateKey (CreateKey DeviceProfileCollection "name") dp.Name) ts
      (Blob.profile { dp with Modified := ts }) with e | s''
  · rw [hsc] at h
    exact absurd h (by simp)
  · rw [hsc] at h
    simp only [Except.ok.injEq, Prod.mk.injEq] at h
    obtain ⟨hr, hs'⟩ := h
    subst hs'
    constructor
    · rw [← hr]
    · rw [← hr]
      exact specCreate_ok_objectAt _ _ _ _ _ _ _ hsc

theorem addDeviceService_ok (s : Store) (ts : Int) (ds r : DeviceService) (s' : Store)
    (h : addDeviceService s ts ds = Except.ok (r, s')) :
    r.Id = ds.Id ∧ objectAt s' (CreateKey DeviceServiceCollection ds.Id) = some (Blob.service r) := by
  simp only [addDeviceService] at h
  rcases hsc : specCreate s DeviceServiceCollection
      (CreateKey DeviceServiceCollection ds.Id)
      (CreateKey (CreateKey DeviceServiceCollection "name") ds.Name) ts
      (Blob.service { ds with Modified := ts }) with e | s''
  · rw [hsc] at h
    exact absurd h (by simp)
  · rw [hsc] at h
    simp only [Except.ok.injEq, Prod.mk.injEq] at h
    obtain ⟨hr, hs'⟩ := h
    subst hs'
    constructor
    · rw [← hr]
    · rw [← hr]
      exact specCreate_ok_objectAt _ _ _ _ _ _ _ hsc

theorem addDevice_ok (s : Store) (ts : Int) (d r : Device) (s' : Store)
    (h : addDevice s ts d = Except.ok (r, s')) :
    r.Id = d.Id ∧ objectAt s' (CreateKey DeviceCollection d.Id) = some (Blob.device r) := by
  simp only [addDevice] at h
  rcases hsc : specCreate s DeviceCollection
      (CreateKey DeviceCollection d.Id)
      (CreateKey (CreateKey DeviceCollection "name") d.Name) ts
      (Blob.device { d with Modified := ts }) with e | s''
  · rw [hsc] at h
    exact absurd h (by simp)
  · rw [hsc] at h
    simp only [Except.ok.injEq, Prod.mk.injEq] at h
    obtain ⟨hr, hs'⟩ := h
    subst hs'
    constructor
    · rw [← hr]
    · rw [← hr]
      exact specCreate_ok_objectAt _ _ _ _ _ _ _ hsc

theorem uuidNew_inj {g1 g2 : Nat} (h : uuidNew g1 = uuidNew g2) : g1 = g2 := by
  have hd := congrArg String.data h
  simp only [uuidNew] at hd
  have hrep : List.replicate g1 'x' = List.replicate g2 'x' := by
    injection hd
  have hlen := congrArg List.length hrep
  simpa using hlen

/-! Claim theorems. -/

/-- C1: updateTransmission first fetches the old record by id, then issues —
inside one MULTI/EXEC batch — the removals of the object's key from every
secondary index keyed by the old record's field values, followed by the
object overwrite and the additions keyed by the new record's field values;
hence after a committed update no secondary index retains an entry keyed by a
prior (changed) field value. -/
theorem c1_update_no_stale_secondary_entries (s : Store) (t old : Transmission) (ts : Int)
    (h : transmissionById s t.Id = Except.ok old) :
    updateTransmission s t ts = Except.ok (Cmd.multi ::
      (sendDeleteTransmissionCmd (transmissionStoredKey t.Id) old ++
        sendAddTransmissionCmd (transmissionStoredKey t.Id) { t with Modified := ts } ++
        [Cmd.exec])) ∧
    ∃ s', updateTransmissionApply s t ts = Except.ok s' ∧
      (old.Status ≠ t.Status →
        zscore s' (CreateKey TransmissionCollectionStatus old.Status)
          (transmissionStoredKey t.Id) = none) ∧
      (old.SubscriptionName ≠ t.SubscriptionName →
        zscore s' (CreateKey TransmissionCollectionSubscriptionName old.SubscriptionName)
          (transmissionStoredKey t.Id) = none) ∧
      (old.NotificationId ≠ t.NotificationId →
        zscore s' (CreateKey TransmissionCollectionNotificationId old.NotificationId)
          (transmissionStoredKey t.Id) = none) := by
  have hup : updateTransmission s t ts = Except.ok (Cmd.multi ::
      (sendDeleteTransmissionCmd (transmissionStoredKey t.Id) old ++
        sendAddTransmissionCmd (transmissionStoredKey t.Id) { t with Modified := ts } ++
        [Cmd.exec])) := by
    rw [updateTransmission, h]
  refine ⟨hup, applyCmds s (Cmd.multi ::
      (sendDeleteTransmissionCmd (transmissionStoredKey t.Id) old ++
        sendAddTransmissionCmd (transmissionStoredKey t.Id) { t with Modified := ts } ++
        [Cmd.exec])), ?_, ?_, ?_, ?_⟩
  · rw [updateTransmissionApply, hup]
  · intro hne
    simp [sendDeleteTransmissionCmd, sendAddTransmissionCmd, encode,
      tc_ne_ckStatus, created_ne_ckStatus, ckSub_ne_ckStatus, ckNotif_ne_ckStatus,
      ckStatus_ne_same (Ne.symm hne)]
  · intro hne
    simp [sendDeleteTransmissionCmd, sendAddTransmissionCmd, encode,
      tc_ne_ckSub, created_ne_ckSub, ckStatus_ne_ckSub, ckNotif_ne_ckSub,
      ckSub_ne_same (Ne.symm hne)]
  · intro hne
    simp [sendDeleteTransmissionCmd, sendAddTransmissionCmd, encode,
      tc_ne_ckNotif, created_ne_ckNotif, ckStatus_ne_ckNotif, ckSub_ne_ckNotif,
      ckNotif_ne_same (Ne.symm hne)]

/-- Witness for C1: a committed update of wOld to wNew (all three secondary
field values changed) leaves none of the three old-valued secondary index
entries in the store. -/
theorem c1_witness :
    (updateTransmissionApply wStore wNew 99).map (fun s' =>
      (zscore s' (CreateKey TransmissionCollectionStatus wOld.Status)
        (transmissionStoredKey wNew.Id),
       zscore s' (CreateKey TransmissionCollectionSubscriptionName wOld.SubscriptionName)
        (transmissionStoredKey wNew.Id),
       zscore s' (CreateKey TransmissionCollectionNotificationId wOld.NotificationId)
        (transmissionStoredKey wNew.Id))) = Except.ok (none, none, none) := by
  obtain ⟨hcmds, s', hs', h1, h2, h3⟩ :=
    c1_update_no_stale_secondary_entries wStore wNew wOld 99 rfl
  rw [hs']
  simp only [Except.map]
  rw [h1 (by decide), h2 (by decide), h3 (by decide)]

/-- C2: addTransmission stores and returns the record with Modified set to
the store-generated timestamp (the caller's Modified is ignored) and Created
set to that timestamp exactly when the caller supplied 0 (otherwise the
caller's Created is preserved); updateTransmission likewise overwrites
Modified with the store-generated timestamp in the stored record. -/
theorem c2_store_generated_timestamps (s : Store) (t : Transmission) (ts : Int)
    (h : objectIdExists s (transmissionStoredKey t.Id) = false)
    (s2 : Store) (u old : Transmission) (ts2 : Int)
    (h2 : transmissionById s2 u.Id = Except.ok old) :
    (∃ t' s', addTransmissionApply s t ts = Except.ok (t', s') ∧
      t'.Modified = ts ∧
      t'.Created = (if t.Created = 0 then ts else t.Created) ∧
      t'.Id = t.Id ∧
      objectAt s' (transmissionStoredKey t.Id) = some (encode t')) ∧
    (∃ s2', updateTransmissionApply s2 u ts2 = Except.ok s2' ∧
      objectAt s2' (transmissionStoredKey u.Id) =
        some (encode { u with Modified := ts2 })) := by
  constructor
  · by_cases hc : t.Created = 0
    · refine ⟨{ t with Created := ts, Modified := ts },
        applyCmds s (Cmd.multi :: (sendAddTransmissionCmd (transmissionStoredKey t.Id)
          { t with Created := ts, Modified := ts } ++ [Cmd.exec])), ?_, rfl, ?_, rfl, ?_⟩
      · simp [addTransmissionApply, addTransmission, h, hc]
      · simp [hc]
      · simp [sendAddTransmissionCmd, encode]
    · refine ⟨{ t with Modified := ts },
        applyCmds s (Cmd.multi :: (sendAddTransmissionCmd (transmissionStoredKey t.Id)
          { t with Modified := ts } ++ [Cmd.exec])), ?_, rfl, ?_, rfl, ?_⟩
      · simp [addTransmissionApply, addTransmission, h, hc]
      · simp [hc]
      · simp [sendAddTransmissionCmd, encode]
  · have hup : updateTransmission s2 u ts2 = Except.ok (Cmd.multi ::
        (sendDeleteTransmissionCmd (transmissionStoredKey u.Id) old ++
          sendAddTransmissionCmd (transmissionStoredKey u.Id) { u with Modified := ts2 } ++
          [Cmd.exec])) := by
      rw [updateTransmission, h2]
    refine ⟨applyCmds s2 (Cmd.multi ::
        (sendDeleteTransmissionCmd (transmissionStoredKey u.Id) old ++
          sendAddTransmissionCmd (transmissionStoredKey u.Id) { u with Modified := ts2 } ++
          [Cmd.exec])), ?_, ?_⟩
    · rw [updateTransmissionApply, hup]
    · simp [sendDeleteTransmissionCmd, sendAddTransmissionCmd, encode]

/-- Witness for C2: adding a transmission with Created = 0 at timestamp 42
stores Created = Modified = 42; a committed update at timestamp 55 stores the
record with Modified = 55. -/
theorem c2_witness :
    (addTransmissionApply emptyStore ⟨"t2", 0, 77, "NEW", "sub", "n", 0, "c"⟩ 42).map
      (fun p => (p.1.Modified, p.1.Created)) = Except.ok (42, 42) ∧
    (updateTransmissionApply wStore wNew 55).map (fun s2' =>
      objectAt s2' (transmissionStoredKey wNew.Id)) =
      Except.ok (some (encode { wNew with Modified := 55 })) := by
  obtain ⟨⟨t', s', ha, hm, hc, hid, hobj⟩, ⟨s2', hu, hobj2⟩⟩ :=
    c2_store_generated_timestamps emptyStore ⟨"t2", 0, 77, "NEW", "sub", "n", 0, "c"⟩ 42 rfl
      wStore wNew wOld 55 rfl
  constructor
  · rw [ha]
    simp only [Except.map]
    rw [hm, hc]
    simp
  · rw [hu]
    simp only [Except.map]
    rw [hobj2]

/-- C3: addTransmission on an id whose object record already exists fails
with a DuplicateName-family error right after the existence probe, without
queuing any command, leaving the store unchanged. -/
theorem c3_duplicate_id_rejected (s : Store) (t : Transmission) (ts : Int)
    (h : objectIdExists s (transmissionStoredKey t.Id) = true) :
    addTransmission s t ts =
      Except.error ⟨ErrKind.DuplicateName, "transmission id " ++ t.Id ++ " already exists"⟩ ∧
    addTransmissionApply s t ts =
      Except.error ⟨ErrKind.DuplicateName, "transmission id " ++ t.Id ++ " already exists"⟩ := by
  constructor <;> simp [addTransmission, addTransmissionApply, h]

/-- Witness for C3: re-adding id t1 over wStore fails with DuplicateName. -/
theorem c3_witness :
    addTransmission wStore ⟨"t1", 0, 0, "S", "s", "n", 0, "c"⟩ 5 =
      Except.error ⟨ErrKind.DuplicateName, "transmission id t1 already exists"⟩ :=
  (c3_duplicate_id_rejected wStore ⟨"t1", 0, 0, "S", "s", "n", 0, "c"⟩ 5 rfl).1

/-- C4: updateTransmission on an id with no existing record fails with
NotFound, propagated from the initial fetch, before queuing any store
command, so the store is unchanged. -/
theorem c4_update_missing_id_notfound (s : Store) (t : Transmission) (ts : Int)
    (h : objectAt s (transmissionStoredKey t.Id) = none) :
    updateTransmission s t ts =
      Except.error ⟨ErrKind.NotFound, "object does not exist in the database"⟩ ∧
    updateTransmissionApply s t ts =
      Except.error ⟨ErrKind.NotFound, "object does not exist in the database"⟩ := by
  have h' : alookup (transmissionStoredKey t.Id) s.objects = none := h
  constructor <;>
    simp [updateTransmission, updateTransmissionApply, transmissionById, getObjectById, h',
      NewCommonEdgeXWrapper]

/-- Witness for C4: updating over the empty store fails with NotFound. -/
theorem c4_witness :
    updateTransmission emptyStore wNew 9 =
      Except.error ⟨ErrKind.NotFound, "object does not exist in the database"⟩ :=
  (c4_update_missing_id_notfound emptyStore wNew 9 rfl).1

/-- C5: the delete command set removes the object blob at the stored key and
removes that key from the primary (modified-time) index, the created-time
index, and the three secondary indexes keyed by the record's current field
values, so no index retains a reference to the deleted object. -/
theorem c5_delete_removes_all_references (s : Store) (t : Transmission) :
    objectAt (applyCmds s (sendDeleteTransmissionCmd (transmissionStoredKey t.Id) t))
        (transmissionStoredKey t.Id) = none ∧
    zscore (applyCmds s (sendDeleteTransmissionCmd (transmissionStoredKey t.Id) t))
        TransmissionCollection (transmissionStoredKey t.Id) = none ∧
    zscore (applyCmds s (sendDeleteTransmissionCmd (transmissionStoredKey t.Id) t))
        TransmissionCollectionCreated (transmissionStoredKey t.Id) = none ∧
    zscore (applyCmds s (sendDeleteTransmissionCmd (transmissionStoredKey t.Id) t))
        (CreateKey TransmissionCollectionStatus t.Status) (transmissionStoredKey t.Id) = none ∧
    zscore (applyCmds s (sendDeleteTransmissionCmd (transmissionStoredKey t.Id) t))
        (CreateKey TransmissionCollectionSubscriptionName t.SubscriptionName)
        (transmissionStoredKey t.Id) = none ∧
    zscore (applyCmds s (sendDeleteTransmissionCmd (transmissionStoredKey t.Id) t))
        (CreateKey TransmissionCollectionNotificationId t.NotificationId)
        (transmissionStoredKey t.Id) = none := by
  refine ⟨?_, ?_, ?_, ?_, ?_, ?_⟩ <;>
    simp [sendDeleteTransmissionCmd, tc_ne_created, tc_ne_ckStatus, tc_ne_ckSub, tc_ne_ckNotif,
      created_ne_tc, created_ne_ckStatus, created_ne_ckSub, created_ne_ckNotif,
      ckStatus_ne_tc, ckStatus_ne_created, ckStatus_ne_ckSub, ckStatus_ne_ckNotif,
      ckSub_ne_tc, ckSub_ne_created, ckSub_ne_ckStatus, ckSub_ne_ckNotif,
      ckNotif_ne_tc, ckNotif_ne_created, ckNotif_ne_ckStatus, ckNotif_ne_ckSub]

/-- Counterexample for C6: a stored blob that fails to decode during a
paginated query makes both allTransmissions and transmissionsByTimeRange fail
with a KindDatabaseError error — not with the distinct DecodeError kind the
claim asserts. -/
theorem c6_counterexample :
    allTransmissions badBlobStore 0 10 =
      Except.error ⟨ErrKind.DatabaseError,
        "transmission format parsing failed from the database"⟩ ∧
    transmissionsByTimeRange badBlobStore 0 10 0 10 =
      Except.error ⟨ErrKind.DatabaseError,
        "transmission format parsing failed from the database"⟩ ∧
    ErrKind.DatabaseError ≠ ErrKind.DecodeError := by
  refine ⟨rfl, rfl, by decide⟩

/-- C6 (amended): for every stored blob that fails to decode during a
paginated query (allTransmissions or transmissionsByTimeRange), the operation
fails — with an error of kind DatabaseError — rather than silently skipping
the malformed record. -/
theorem c6_decode_failure_fails_with_database_error (s : Store) (offset limit : Nat)
    (startTime endTime : Int) (bs1 bs2 : List Blob)
    (h1 : getObjectsByRevRange s TransmissionCollection offset limit = Except.ok bs1)
    (h2 : getObjectsByScoreRange s TransmissionCollectionCreated startTime endTime offset limit =
      Except.ok bs2)
    (hb1 : ∃ b ∈ bs1, decode b = none)
    (hb2 : ∃ b ∈ bs2, decode b = none) :
    (∃ m, allTransmissions s offset limit = Except.error ⟨ErrKind.DatabaseError, m⟩) ∧
    (∃ m, transmissionsByTimeRange s startTime endTime offset limit =
      Except.error ⟨ErrKind.DatabaseError, m⟩) := by
  obtain ⟨m1, hm1⟩ := decodeTransmissionList_error_of_bad bs1 hb1
  obtain ⟨m2, hm2⟩ := decodeTransmissionList_error_of_bad bs2 hb2
  constructor
  · exact ⟨m1, by simp only [allTransmissions, h1]; exact hm1⟩
  · exact ⟨m2, by simp only [transmissionsByTimeRange, h2]; exact hm2⟩

/-- Witness for the amended C6, on the store holding one malformed blob. -/
theorem c6_witness :
    (∃ m, allTransmissions badBlobStore 0 10 = Except.error ⟨ErrKind.DatabaseError, m⟩) ∧
    (∃ m, transmissionsByTimeRange badBlobStore 0 10 0 10 =
      Except.error ⟨ErrKind.DatabaseError, m⟩) :=
  c6_decode_failure_fails_with_database_error badBlobStore 0 10 0 10
    [Blob.bad 0] [Blob.bad 0] rfl rfl
    ⟨Blob.bad 0, by simp, rfl⟩ ⟨Blob.bad 0, by simp, rfl⟩

/-- C7: allTransmissions reads the window of at most limit member keys
starting at offset from the primary modified-time index in reverse score
order (newest first) and returns the decoded transmissions in exactly that
index order, the result length equalling the number of members read. -/
theorem c7_all_transmissions_window (s : Store) (offset limit : Nat)
    (h : ∀ k ∈ revRangeMembers s TransmissionCollection offset limit,
      ∃ tr, objectAt s k = some (Blob.trans tr)) :
    allTransmissions s offset limit =
      Except.ok ((revRangeMembers s TransmissionCollection offset limit).filterMap
        (fetchDecode s)) ∧
    ((revRangeMembers s TransmissionCollection offset limit).filterMap (fetchDecode s)).length =
      (revRangeMembers s TransmissionCollection offset limit).length ∧
    (revRangeMembers s TransmissionCollection offset limit).length ≤ limit := by
  obtain ⟨bs, hbs, hdec, hlen⟩ := fetchAll_ok_of_stored s _ h
  refine ⟨?_, hlen, ?_⟩
  · simp only [allTransmissions, getObjectsByRevRange, hbs]
    exact hdec
  · rw [revRangeMembers, List.length_take]
    exact Nat.min_le_left _ _

/-- Witness for C7: the two-record store is paged newest first, both records
decode, and the window length is within the limit. -/
theorem c7_witness :
    allTransmissions w7Store 0 5 = Except.ok [w7b, w7a] ∧
    (revRangeMembers w7Store TransmissionCollection 0 5).length ≤ 5 := by
  have hh : ∀ k ∈ revRangeMembers w7Store TransmissionCollection 0 5,
      ∃ tr, objectAt w7Store k = some (Blob.trans tr) := by
    intro k hk
    have hm : revRangeMembers w7Store TransmissionCollection 0 5 =
        ["sn|trans:b", "sn|trans:a"] := rfl
    rw [hm] at hk
    simp only [List.mem_cons, List.not_mem_nil, or_false] at hk
    rcases hk with rfl | rfl
    · exact ⟨w7b, rfl⟩
    · exact ⟨w7a, rfl⟩
  obtain ⟨h1, _, h3⟩ := c7_all_transmissions_window w7Store 0 5 hh
  refine ⟨?_, h3⟩
  rw [h1]
  rfl

/-- Counterexample for C8: AddDeviceService accepts a non-empty id that is
not a canonical uuid and proceeds to the store layer, returning success on an
empty store — it does not fail with InvalidId as the claim asserts for every
Add operation. -/
theorem c8_counterexample :
    dsBadId.Id ≠ "" ∧
    isValidUUID dsBadId.Id = false ∧
    (ClientAddDeviceService emptyStore 0 5 dsBadId).1 =
      Except.ok (⟨"not-a-uuid", "svc", 5⟩,
        ⟨[("md|ds:not-a-uuid", Blob.service ⟨"not-a-uuid", "svc", 5⟩)],
         [("md|ds", [("md|ds:not-a-uuid", 5)]),
          ("md|ds:name:svc", [("md|ds:not-a-uuid", 5)])]⟩) := by
  refine ⟨by decide, rfl, rfl⟩

/-- C8 (amended): AddEvent and AddDeviceProfile reject a malformed non-empty
id with InvalidId before any store access (the failing call performs no store
interaction and, for AddDeviceProfile, leaves the generator untouched);
AddDeviceService performs no id validation and hands the entity to the store
layer unchanged. -/
theorem c8_invalid_id_rejected_by_event_and_profile (s : Store) (g : Nat) (ts : Int)
    (e : Event) (dp : DeviceProfile) (ds : DeviceService)
    (he1 : e.Id ≠ "") (he2 : isValidUUID e.Id = false)
    (hp1 : dp.Id ≠ "") (hp2 : isValidUUID dp.Id = false)
    (hd1 : ds.Id ≠ "") :
    ClientAddEvent s ts e = Except.error ⟨ErrKind.InvalidId, "uuid parsing failed"⟩ ∧
    (ClientAddDeviceProfile s g ts dp).1 =
      Except.error ⟨ErrKind.InvalidId, "ID failed UUID parsing"⟩ ∧
    (ClientAddDeviceProfile s g ts dp).2 = g ∧
    (ClientAddDeviceService s g ts ds).1 = addDeviceService s ts ds := by
  refine ⟨?_, ?_, ?_, ?_⟩ <;>
    simp [ClientAddEvent, ClientAddDeviceProfile, ClientAddDeviceService, he1, he2, hp1, hp2, hd1]

/-- Witness for the amended C8 at a concrete malformed id. -/
theorem c8_witness :
    ClientAddEvent emptyStore 3 ⟨"zzz", "dev", 0⟩ =
      Except.error ⟨ErrKind.InvalidId, "uuid parsing failed"⟩ ∧
    (ClientAddDeviceProfile emptyStore 0 3 ⟨"zzz", "p", 0⟩).1 =
      Except.error ⟨ErrKind.InvalidId, "ID failed UUID parsing"⟩ ∧
    (ClientAddDeviceProfile emptyStore 0 3 ⟨"zzz", "p", 0⟩).2 = 0 ∧
    (ClientAddDeviceService emptyStore 0 3 dsBadId).1 = addDeviceService emptyStore 3 dsBadId :=
  c8_invalid_id_rejected_by_event_and_profile emptyStore 0 3 ⟨"zzz", "dev", 0⟩ ⟨"zzz", "p", 0⟩
    dsBadId (by decide) rfl (by decide) rfl (by decide)

/-- C9: each Add call whose entity carries an empty id (AddDeviceProfile,
AddDeviceService, AddDevice) assigns the freshly generated identifier to the
entity before persisting it (the persisted blob sits at the key derived from
the generated id), advances the generator, and distinct generator states
yield distinct identifiers, so distinct calls receive distinct ids. -/
theorem c9_empty_id_gets_fresh_unique_id (s : Store) (g : Nat) (ts : Int)
    (dp : DeviceProfile) (ds : DeviceService) (d : Device)
    (hp : dp.Id = "") (hs : ds.Id = "") (hd : d.Id = "") :
    (ClientAddDeviceProfile s g ts dp).2 = g + 1 ∧
    (∀ r s', (ClientAddDeviceProfile s g ts dp).1 = Except.ok (r, s') →
      r.Id = uuidNew g ∧
      objectAt s' (CreateKey DeviceProfileCollection (uuidNew g)) = some (Blob.profile r)) ∧
    (ClientAddDeviceService s g ts ds).2 = g + 1 ∧
    (∀ r s', (ClientAddDeviceService s g ts ds).1 = Except.ok (r, s') →
      r.Id = uuidNew g ∧
      objectAt s' (CreateKey DeviceServiceCollection (uuidNew g)) = some (Blob.service r)) ∧
    (ClientAddDevice s g ts d).2 = g + 1 ∧
    (∀ r s', (ClientAddDevice s g ts d).1 = Except.ok (r, s') →
      r.Id = uuidNew g ∧
      objectAt s' (CreateKey DeviceCollection (uuidNew g)) = some (Blob.device r)) ∧
    (∀ g1 g2 : Nat, g1 ≠ g2 → uuidNew g1 ≠ uuidNew g2) := by
  refine ⟨?_, ?_, ?_, ?_, ?_, ?_, ?_⟩
  · simp [ClientAddDeviceProfile, hp]
  · intro r s' hok
    have h1 : (ClientAddDeviceProfile s g ts dp).1 =
        addDeviceProfile s ts { dp with Id := uuidNew g } := by
      simp [ClientAddDeviceProfile, hp]
    rw [h1] at hok
    obtain ⟨hid, hobj⟩ := addDeviceProfile_ok _ _ _ _ _ hok
    exact ⟨hid, hobj⟩
  · simp [ClientAddDeviceService, hs]
  · intro r s' hok
    have h1 : (ClientAddDeviceService s g ts ds).1 =
        addDeviceService s ts { ds with Id := uuidNew g } := by
      simp [ClientAddDeviceService, hs]
    rw [h1] at hok
    obtain ⟨hid, hobj⟩ := addDeviceService_ok _ _ _ _ _ hok
    exact ⟨hid, hobj⟩
  · simp [ClientAddDevice, hd]
  · intro r s' hok
    have h1 : (ClientAddDevice s g ts d).1 = addDevice s ts { d with Id := uuidNew g } := by
      simp [ClientAddDevice, hd]
    rw [h1] at hok
    obtain ⟨hid, hobj⟩ := addDevice_ok _ _ _ _ _ hok
    exact ⟨hid, hobj⟩
  · intro g1 g2 hne heq
    exact hne (uuidNew_inj heq)

/-- Witness for C9: an empty-id profile add at generator 0 advances the
generator, and the tokens issued at 0 and 1 differ. -/
theorem c9_witness :
    (ClientAddDeviceProfile emptyStore 0 7 ⟨"", "p", 0⟩).2 = 1 ∧
    uuidNew 0 ≠ uuidNew 1 := by
  obtain ⟨h1, _, _, _, _, _, hinj⟩ :=
    c9_empty_id_gets_fresh_unique_id emptyStore 0 7 ⟨"", "p", 0⟩ ⟨"", "s", 0⟩ ⟨"", "d", 0⟩
      rfl rfl rfl
  exact ⟨h1, hinj 0 1 (by decide)⟩

/-- C10: updateTransmission persists the caller-supplied record with only
Modified replaced by the store timestamp; every other field, Created
included, is taken wholesale from the argument (the old record only drives
index removals), so a caller supplying Created = 0 on update makes the stored
Created 0. -/
theorem c10_update_persists_caller_record (s : Store) (t old : Transmission) (ts : Int)
    (h : transmissionById s t.Id = Except.ok old) :
    ∃ s', updateTransmissionApply s t ts = Except.ok s' ∧
      objectAt s' (transmissionStoredKey t.Id) = some (encode { t with Modified := ts }) ∧
      ({ t with Modified := ts }).Created = t.Created ∧
      ({ t with Modified := ts }).Status = t.Status := by
  have hup : updateTransmission s t ts = Except.ok (Cmd.multi ::
      (sendDeleteTransmissionCmd (transmissionStoredKey t.Id) old ++
        sendAddTransmissionCmd (transmissionStoredKey t.Id) { t with Modified := ts } ++
        [Cmd.exec])) := by
    rw [updateTransmission, h]
  refine ⟨applyCmds s (Cmd.multi ::
      (sendDeleteTransmissionCmd (transmissionStoredKey t.Id) old ++
        sendAddTransmissionCmd (transmissionStoredKey t.Id) { t with Modified := ts } ++
        [Cmd.exec])), ?_, ?_, rfl, rfl⟩
  · rw [updateTransmissionApply, hup]
  · simp [sendDeleteTransmissionCmd, sendAddTransmissionCmd]

/-- Witness for C10: updating wOld (Created = 11) with wNew (Created = 0)
stores the record with Created = 0 — the original creation time is not
preserved. -/
theorem c10_witness :
    (updateTransmissionApply wStore wNew 99).map (fun s' =>
      objectAt s' (transmissionStoredKey wNew.Id)) =
      Except.ok (some (encode { wNew with Modified := 99 })) := by
  obtain ⟨s', hs', hobj, _, _⟩ := c10_update_persists_caller_record wStore wNew wOld 99 rfl
  rw [hs']
  simp only [Except.map]
  rw [hobj]
